import Mathlib

/-!
Shallow embedding of `scripts/picus-token-helper.py` (class `PicusTokenHelper`).

The Python object state (`refresh_token`, `access_token`, `token_expires_at`,
`base_url`, `token_file`) becomes the structure `HelperState`.  The persisted
JSON record becomes `TokenData` with `Option` fields for optional keys.  I/O
and the network are passed in explicitly: the condition of the token file is a
`FileView`, the behaviour of the HTTP layer is an `HTTPOutcome` / `ProbeHTTP`
value, and the clock is an `Int` parameter (`now` in seconds, `now_ms` in
milliseconds, matching the two units the script uses).

Python truthiness drives several branches of the script (`if not
self.refresh_token`, `if access_token:`, `if expires_at:`, `if
stored_timestamp:`), so it is modelled explicitly: an optional string is
truthy iff present and non-empty, an optional integer is truthy iff present
and non-zero.
-/

namespace PicusHelper

/-- Python truthiness of an optional string value: `None` and `""` are falsy. -/
def truthyStr : Option String → Bool
  | none => false
  | some s => !(s == "")

/-- Python truthiness of an optional integer value: `None` and `0` are falsy. -/
def truthyInt : Option Int → Bool
  | none => false
  | some n => !(n == 0)

/-- The persisted JSON record (`picus-tokens.json`).  Each optional key of the
dictionary becomes an `Option` field.  `timestamp` is in milliseconds,
`expires_at` in seconds, as in the script.  (The `_instructions` key of the
example file carries no data relevant to the helper and is not modelled.) -/
structure TokenData where
  refresh_token : Option String
  access_token : Option String
  timestamp : Option Int
  expires_at : Option Int
  created_at : Option String
deriving Repr, DecidableEq

/-- The in-memory state of a `PicusTokenHelper` object. -/
structure HelperState where
  base_url : String
  token_file : String
  refresh_token : Option String
  access_token : Option String
  token_expires_at : Int
deriving Repr, DecidableEq

/-- Removal of trailing slash characters, on a reversed character list. -/
def rstripSlashRev : List Char → List Char
  | [] => []
  | c :: cs => if c = '/' then rstripSlashRev cs else c :: cs

/-- Python code drops trailing slashes of the base URL with rstrip. -/
def rstripSlash (s : String) : String :=
  String.mk (rstripSlashRev s.data.reverse).reverse

/-- Embeds `PicusTokenHelper.__init__`: `refresh_token = None`, `access_token = None`,
`token_expires_at = 0`. -/
def mkHelper (base_url token_file : String) : HelperState :=
  { base_url := rstripSlash base_url
    token_file := token_file
    refresh_token := none
    access_token := none
    token_expires_at := 0 }

/-- What the helper finds at `token_file`: the file is absent, its open/parse
raises (caught by the `except` in `load_tokens`), or it parses to a record. -/
inductive FileView where
  | missing : FileView
  | unreadable : FileView
  | record : TokenData → FileView
deriving Repr, DecidableEq

/-- Result of a `load_tokens` call: the updated object state, the returned
boolean, and the advisory token age in whole days (`none` when no truthy
`timestamp` was stored, i.e. the "token age unknown" path). -/
structure LoadRun where
  state : HelperState
  ok : Bool
  ageDays : Option Int
deriving Repr, DecidableEq

/-- Embeds `PicusTokenHelper.load_tokens`.  Mirrors the source: the
`refresh_token` and `access_token` are assigned to the object *before* the
validity checks; a falsy or placeholder refresh token returns `False`; a
truthy stored `timestamp` yields an advisory age in days (floor division, as
`timedelta.days`), otherwise the age is unknown; both of those paths return
`True`. -/
def load_tokens (s : HelperState) (file : FileView) (now_ms : Int) : LoadRun :=
  match file with
  | .missing => ⟨s, false, none⟩
  | .unreadable => ⟨s, false, none⟩
  | .record td =>
    let s1 : HelperState :=
      { s with refresh_token := td.refresh_token, access_token := td.access_token }
    let stored_timestamp := td.timestamp
    if ¬ truthyStr s1.refresh_token then ⟨s1, false, none⟩
    else if s1.refresh_token = some "your_refresh_token_here" then ⟨s1, false, none⟩
    else if truthyInt stored_timestamp then
      ⟨s1, true, some (Int.fdiv (now_ms - stored_timestamp.getD 0) 86400000)⟩
    else ⟨s1, true, none⟩

/-- The record `PicusTokenHelper.save_tokens` builds before writing:
`refresh_token`, `timestamp` and `created_at` always, `access_token` and
`expires_at` each only when the corresponding argument is truthy. -/
def save_tokens_record (refresh_token : String) (access_token : Option String)
    (expires_at : Option Int) (now_ms : Int) (created_at : String) : TokenData :=
  let td : TokenData :=
    ⟨some refresh_token, none, some now_ms, none, some created_at⟩
  let td := if truthyStr access_token then { td with access_token := access_token } else td
  let td := if truthyInt expires_at then { td with expires_at := expires_at } else td
  td

/-- The three console diagnostics the `try`/`except` blocks of `save_tokens`
can emit. -/
inductive SaveMsg where
  | savedSecure : SaveMsg
  | savedNoPerm : SaveMsg
  | errorSaving : SaveMsg
deriving Repr, DecidableEq

/-- One run of `save_tokens`: what ended up on disk (`none` when the write
raised), which diagnostic was printed, and the Python return value.  The
function body has no `return` statement, so the Python call returns `None` on
every path; `ret : Unit` models that single possible value. -/
structure SaveRun where
  written : Option TokenData
  msg : SaveMsg
  ret : Unit
deriving Repr, DecidableEq

/-- Embeds `PicusTokenHelper.save_tokens`.  `writeOk` is whether the
open/`json.dump` succeeds, `chmodOk` whether `os.chmod` succeeds.  A failed
write is caught and reported; a failed chmod degrades the message only.  The
return value is `()` (Python `None`) on every path. -/
def save_tokens (refresh_token : String) (access_token : Option String)
    (expires_at : Option Int) (now_ms : Int) (created_at : String)
    (writeOk chmodOk : Bool) : SaveRun :=
  let td := save_tokens_record refresh_token access_token expires_at now_ms created_at
  if writeOk then
    if chmodOk then ⟨some td, .savedSecure, ()⟩
    else ⟨some td, .savedNoPerm, ()⟩
  else ⟨none, .errorSaving, ()⟩

/-- The record written by `create_example_token_file`: placeholder refresh
token, timestamp, creation time; no `access_token`, no `expires_at`. -/
def create_example_record (now_ms : Int) (created_at : String) : TokenData :=
  ⟨some "your_refresh_token_here", none, some now_ms, none, some created_at⟩

/-- Body of a successful-HTTP-status authentication response, as read by
`response.json()`: the optional `token` and `expire_at` keys. -/
structure AuthBody where
  token : Option String
  expire_at : Option Int
deriving Repr, DecidableEq

/-- Outcome of the `requests.post` round trip in `authenticate`: a timeout, a
connection error, or a response with a status code, a body text, and — when
the body is JSON — its parsed fields (`none` makes `response.json()` raise,
landing in the generic `except`). -/
inductive HTTPOutcome where
  | timeout : HTTPOutcome
  | connectionError : HTTPOutcome
  | response : Nat → String → Option AuthBody → HTTPOutcome
deriving Repr, DecidableEq

/-- The distinguishable outcomes of `authenticate` (in the script they are
distinguished by the printed diagnostics; the function itself returns a
boolean that is `true` only for `success`). -/
inductive AuthResult where
  | noRefreshToken : AuthResult
  | success : AuthResult
  | noAccessTokenReceived : AuthResult
  | timeoutErr : AuthResult
  | connectionErr : AuthResult
  | httpError : Nat → String → AuthResult
  | otherError : AuthResult
deriving Repr, DecidableEq

/-- One run of `authenticate`: the updated object state, the outcome, and the
record passed to `save_tokens` (`none` when `save_tokens` was not called). -/
structure AuthRun where
  state : HelperState
  result : AuthResult
  saved : Option TokenData
deriving Repr, DecidableEq

/-- Embeds `requests.Response.raise_for_status`: it raises exactly for status codes in
`[400, 600)`. -/
def raiseForStatus (status : Nat) : Bool :=
  400 ≤ status && status < 600

/-- Embeds `PicusTokenHelper.authenticate`.  Mirrors the source: a falsy refresh
token fails before any request; `raise_for_status` sends `[400,600)` statuses
to the `HTTPError` handler (status and body text printed) with no state
change; otherwise `self.access_token` is overwritten with the `token` of the body;
a truthy token takes `expire_at` when truthy, else `now + 3600`, then calls
`save_tokens` with the refresh token, access token and expiry. -/
def authenticate (s : HelperState) (net : HTTPOutcome) (now : Int) (now_ms : Int)
    (created_at : String) : AuthRun :=
  if ¬ truthyStr s.refresh_token then ⟨s, .noRefreshToken, none⟩
  else
    match net with
    | .timeout => ⟨s, .timeoutErr, none⟩
    | .connectionError => ⟨s, .connectionErr, none⟩
    | .response status text body =>
      if raiseForStatus status then ⟨s, .httpError status text, none⟩
      else
        match body with
        | none => ⟨s, .otherError, none⟩
        | some data =>
          let s1 : HelperState := { s with access_token := data.token }
          let expire_at := data.expire_at
          if truthyStr s1.access_token then
            let s2 : HelperState :=
              if truthyInt expire_at then { s1 with token_expires_at := expire_at.getD 0 }
              else { s1 with token_expires_at := now + 3600 }
            let td := save_tokens_record (s2.refresh_token.getD "") s2.access_token
              (some s2.token_expires_at) now_ms created_at
            ⟨s2, .success, some td⟩
          else ⟨s1, .noAccessTokenReceived, none⟩

/-- Outcome of the `requests.get` round trip in `test_api_connection`: status
code plus, when the body is JSON, the length of its `data` list (`none` inner
value when the `data` key is absent, in which case `data.get` defaults to
`[]`). -/
inductive ProbeHTTP where
  | timeout : ProbeHTTP
  | connectionError : ProbeHTTP
  | response : Nat → Option (Option Nat) → ProbeHTTP
deriving Repr, DecidableEq

/-- The distinguishable outcomes of `test_api_connection`. -/
inductive ProbeResult where
  | noAccessToken : ProbeResult
  | success : Nat → ProbeResult
  | httpError : Nat → ProbeResult
  | otherError : ProbeResult
deriving Repr, DecidableEq

/-- One run of `test_api_connection`: the outcome and whether an HTTP request
was issued at all. -/
structure ProbeRun where
  result : ProbeResult
  requested : Bool
deriving Repr, DecidableEq

/-- Embeds `PicusTokenHelper.test_api_connection`.  A falsy access token returns
before any request; `[400,600)` statuses land in the `HTTPError` handler;
timeouts, connection failures and non-JSON bodies land in the generic
`except`; otherwise the count of `data` items is reported. -/
def test_api_connection (s : HelperState) (net : ProbeHTTP) : ProbeRun :=
  if ¬ truthyStr s.access_token then ⟨.noAccessToken, false⟩
  else
    match net with
    | .timeout => ⟨.otherError, true⟩
    | .connectionError => ⟨.otherError, true⟩
    | .response status body =>
      if raiseForStatus status then ⟨.httpError status, true⟩
      else
        match body with
        | none => ⟨.otherError, true⟩
        | some dataLen => ⟨.success (dataLen.getD 0), true⟩

/-- What `get_token_status` reports about the refresh token. -/
inductive RefreshStatus where
  | notSet : RefreshStatus
  | placeholder : RefreshStatus
  | isSet : RefreshStatus
deriving Repr, DecidableEq

/-- What `get_token_status` reports about the access token; `valid m` carries
the printed remaining minutes (`remaining // 60`). -/
inductive AccessStatus where
  | notSet : AccessStatus
  | valid : Int → AccessStatus
  | expired : AccessStatus
deriving Repr, DecidableEq

/-- Embeds `PicusTokenHelper.get_token_status` (`now` is `int(time.time())`).  Pure:
reports placeholder/set/unset for the refresh token and, for a truthy access
token, valid with remaining minutes when `token_expires_at > now`, else
expired. -/
def get_token_status (s : HelperState) (now : Int) : RefreshStatus × AccessStatus :=
  let r : RefreshStatus :=
    if truthyStr s.refresh_token then
      if s.refresh_token = some "your_refresh_token_here" then .placeholder else .isSet
    else .notSet
  let a : AccessStatus :=
    if truthyStr s.access_token then
      if s.token_expires_at > now then .valid (Int.fdiv (s.token_expires_at - now) 60)
      else .expired
    else .notSet
  (r, a)

/-- The load-based paths of `main` (no `--setup`, no `--create-example`):
whether `authenticate` ever gets attempted on the loaded record.  A failed
`load_tokens` returns from `main` at once; `--status` only prints;
`--test` authenticates; the default path authenticates only after re-checking
that the refresh token is truthy and not the placeholder. -/
def main_attempts_auth (base_url token_file : String) (file : FileView)
    (now_ms : Int) (statusFlag testFlag : Bool) : Bool :=
  let lr := load_tokens (mkHelper base_url token_file) file now_ms
  if ¬ lr.ok then false
  else if statusFlag then false
  else if testFlag then true
  else truthyStr lr.state.refresh_token &&
    !(lr.state.refresh_token == some "your_refresh_token_here")

end PicusHelper

/-! ## Theorems -/

/-- C7: whenever `test_api_connection` is called with no access token set, it
fails with the no-access-token outcome and issues no network request,
whatever the network would have answered. -/
theorem c7_probe_no_token (s : PicusHelper.HelperState) (net : PicusHelper.ProbeHTTP)
    (h : s.access_token = none) :
    PicusHelper.test_api_connection s net =
      ⟨PicusHelper.ProbeResult.noAccessToken, false⟩ := by
  simp [PicusHelper.test_api_connection, PicusHelper.truthyStr, h]

/-- Witness for C7 at a concrete state with no access token and a network that
would have returned a 200 response. -/
theorem c7_probe_no_token_witness :
    ({ base_url := "https://api.picussecurity.com", token_file := "picus-tokens.json",
       refresh_token := some "rt123", access_token := none,
       token_expires_at := 0 } : PicusHelper.HelperState).access_token = none ∧
    PicusHelper.test_api_connection
      { base_url := "https://api.picussecurity.com", token_file := "picus-tokens.json",
        refresh_token := some "rt123", access_token := none, token_expires_at := 0 }
      (PicusHelper.ProbeHTTP.response 200 (some (some 3))) =
      ⟨PicusHelper.ProbeResult.noAccessToken, false⟩ :=
  ⟨rfl, c7_probe_no_token _ _ rfl⟩

/-- C10: a record file with a valid, non-placeholder refresh token and no
`timestamp` field loads successfully (`load_tokens` returns `True`) with the
token age unknown; the missing timestamp is not an error. -/
theorem c10_load_no_timestamp (s : PicusHelper.HelperState) (td : PicusHelper.TokenData)
    (now_ms : Int)
    (hrt : PicusHelper.truthyStr td.refresh_token = true)
    (hpl : td.refresh_token ≠ some "your_refresh_token_here")
    (hts : td.timestamp = none) :
    (PicusHelper.load_tokens s (.record td) now_ms).ok = true ∧
    (PicusHelper.load_tokens s (.record td) now_ms).ageDays = none := by
  simp [PicusHelper.load_tokens, PicusHelper.truthyInt, hrt, hpl, hts]

/-- Witness for C10 at a concrete record with a real refresh token and no
timestamp. -/
theorem c10_load_no_timestamp_witness :
    PicusHelper.truthyStr (some "rt123") = true ∧
    (some "rt123" : Option String) ≠ some "your_refresh_token_here" ∧
    ((PicusHelper.load_tokens (PicusHelper.mkHelper "u" "f")
        (.record ⟨some "rt123", none, none, none, none⟩) 0).ok = true ∧
      (PicusHelper.load_tokens (PicusHelper.mkHelper "u" "f")
        (.record ⟨some "rt123", none, none, none, none⟩) 0).ageDays = none) :=
  ⟨by decide, by decide, c10_load_no_timestamp _ _ 0 (by decide) (by decide) rfl⟩

/-- C6: a record whose refresh token is missing or equal to the placeholder
fails to load (`load_tokens` returns `False`), and none of the load-based
paths of `main` attempts `authenticate` on it, whatever the flags. -/
theorem c6_placeholder_never_authenticates (s : PicusHelper.HelperState)
    (td : PicusHelper.TokenData) (base_url token_file : String) (now_ms : Int)
    (statusFlag testFlag : Bool)
    (h : td.refresh_token = none ∨ td.refresh_token = some "your_refresh_token_here") :
    (PicusHelper.load_tokens s (.record td) now_ms).ok = false ∧
    PicusHelper.main_attempts_auth base_url token_file (.record td) now_ms
      statusFlag testFlag = false := by
  rcases h with h | h
  · simp [PicusHelper.load_tokens, PicusHelper.main_attempts_auth, PicusHelper.truthyStr, h]
  · constructor
    · simp [PicusHelper.load_tokens, h, PicusHelper.truthyStr]
    · simp [PicusHelper.main_attempts_auth, PicusHelper.load_tokens, h, PicusHelper.truthyStr]

/-- Witness for C6: the placeholder record from `create_example_token_file`
neither loads nor reaches `authenticate` in the default `main` path. -/
theorem c6_placeholder_never_authenticates_witness :
    ((PicusHelper.create_example_record 0 "c").refresh_token = none ∨
      (PicusHelper.create_example_record 0 "c").refresh_token =
        some "your_refresh_token_here") ∧
    ((PicusHelper.load_tokens (PicusHelper.mkHelper "u" "f")
        (.record (PicusHelper.create_example_record 0 "c")) 0).ok = false ∧
      PicusHelper.main_attempts_auth "u" "f"
        (.record (PicusHelper.create_example_record 0 "c")) 0 false false = false) :=
  ⟨Or.inr rfl,
    c6_placeholder_never_authenticates _ _ "u" "f" 0 false false (Or.inr rfl)⟩

/-- Helper: on a parsed record, `load_tokens` always leaves the state at the
original state with only `refresh_token` and `access_token` replaced by the
values from the file, whichever branch it takes. -/
theorem load_tokens_record_state (s : PicusHelper.HelperState)
    (td : PicusHelper.TokenData) (now_ms : Int) :
    (PicusHelper.load_tokens s (.record td) now_ms).state =
      { s with refresh_token := td.refresh_token, access_token := td.access_token } := by
  simp only [PicusHelper.load_tokens]
  split <;> first
    | rfl
    | (split <;> first
        | rfl
        | (split <;> rfl))

/-- C2: a successful `load_tokens` changes only `refresh_token` and
`access_token`; `token_expires_at` stays at the constructor-initialised `0`
(the persisted `expires_at` is never read back), so `get_token_status`
straight after a fresh load reports a stored access token as expired (for any
non-negative clock). -/
theorem c2_load_leaves_expiry (u f : String) (td : PicusHelper.TokenData)
    (now_ms now : Int)
    (hrt : PicusHelper.truthyStr td.refresh_token = true)
    (hpl : td.refresh_token ≠ some "your_refresh_token_here")
    (hacc : PicusHelper.truthyStr td.access_token = true)
    (hnow : 0 ≤ now) :
    (PicusHelper.load_tokens (PicusHelper.mkHelper u f) (.record td) now_ms).ok = true ∧
    (PicusHelper.load_tokens (PicusHelper.mkHelper u f) (.record td) now_ms).state =
      { PicusHelper.mkHelper u f with
          refresh_token := td.refresh_token, access_token := td.access_token } ∧
    (PicusHelper.load_tokens (PicusHelper.mkHelper u f)
        (.record td) now_ms).state.token_expires_at = 0 ∧
    (PicusHelper.get_token_status
        (PicusHelper.load_tokens (PicusHelper.mkHelper u f) (.record td) now_ms).state
        now).2 = PicusHelper.AccessStatus.expired := by
  have hstate := load_tokens_record_state (PicusHelper.mkHelper u f) td now_ms
  have hexp : (PicusHelper.load_tokens (PicusHelper.mkHelper u f)
      (.record td) now_ms).state.token_expires_at = 0 := by
    rw [hstate]; rfl
  refine ⟨?_, hstate, hexp, ?_⟩
  · simp [PicusHelper.load_tokens, hrt, hpl]
    split <;> simp
  · have hng : ¬ ((0 : Int) > now) := by omega
    rw [hstate]
    simp [PicusHelper.get_token_status, PicusHelper.mkHelper, hacc, hng]

/-- Witness for C2: a freshly constructed helper loads a record carrying a
refresh token and a stored access token; the expiry stays `0` and the status
straight after the load reports the access token expired. -/
theorem c2_load_leaves_expiry_witness :
    PicusHelper.truthyStr (some "rt123") = true ∧
    (some "rt123" : Option String) ≠ some "your_refresh_token_here" ∧
    PicusHelper.truthyStr (some "AT1") = true ∧
    ((PicusHelper.load_tokens (PicusHelper.mkHelper "u" "f")
        (.record ⟨some "rt123", some "AT1", some 1000, some 99999, some "c"⟩) 0).ok = true ∧
      (PicusHelper.load_tokens (PicusHelper.mkHelper "u" "f")
        (.record ⟨some "rt123", some "AT1", some 1000, some 99999, some "c"⟩) 0).state =
        { PicusHelper.mkHelper "u" "f" with
            refresh_token := some "rt123", access_token := some "AT1" } ∧
      (PicusHelper.load_tokens (PicusHelper.mkHelper "u" "f")
        (.record ⟨some "rt123", some "AT1", some 1000, some 99999, some "c"⟩)
          0).state.token_expires_at = 0 ∧
      (PicusHelper.get_token_status
        (PicusHelper.load_tokens (PicusHelper.mkHelper "u" "f")
          (.record ⟨some "rt123", some "AT1", some 1000, some 99999, some "c"⟩) 0).state
        7).2 = PicusHelper.AccessStatus.expired) :=
  ⟨by decide, by decide, by decide,
    c2_load_leaves_expiry "u" "f" _ 0 7 (by decide) (by decide) (by decide) (by decide)⟩

/-- C8: with an access token set, `get_token_status` reports expired exactly
when `now < token_expires_at` fails, and reports valid (with a non-negative
remaining-minutes count) exactly when `now < token_expires_at` holds. -/
theorem c8_status_valid_iff (s : PicusHelper.HelperState) (now : Int)
    (h : PicusHelper.truthyStr s.access_token = true) :
    ((PicusHelper.get_token_status s now).2 = PicusHelper.AccessStatus.expired ↔
      ¬ now < s.token_expires_at) ∧
    (now < s.token_expires_at →
      (PicusHelper.get_token_status s now).2 =
        PicusHelper.AccessStatus.valid (Int.fdiv (s.token_expires_at - now) 60)) ∧
    (∀ m, (PicusHelper.get_token_status s now).2 = PicusHelper.AccessStatus.valid m →
      now < s.token_expires_at ∧ 0 ≤ m) := by
  by_cases hc : s.token_expires_at > now
  · have hv : (PicusHelper.get_token_status s now).2 =
        PicusHelper.AccessStatus.valid (Int.fdiv (s.token_expires_at - now) 60) := by
      simp [PicusHelper.get_token_status, h, hc]
    refine ⟨by simp [hv]; omega, fun _ => hv, fun m hm => ?_⟩
    rw [hv] at hm
    cases hm
    exact ⟨hc, Int.fdiv_nonneg (by omega) (by omega)⟩
  · have he : (PicusHelper.get_token_status s now).2 =
        PicusHelper.AccessStatus.expired := by
      simp [PicusHelper.get_token_status, h, hc]
    refine ⟨by simp [he]; omega, fun hlt => absurd hlt hc, fun m hm => ?_⟩
    rw [he] at hm
    cases hm

/-- Witness for C8 at two concrete states: `expires_at = now + 1` is reported
valid (remaining minutes `0`), `expires_at = now - 1` is reported expired. -/
theorem c8_status_valid_iff_witness :
    PicusHelper.truthyStr (some "AT1") = true ∧
    (PicusHelper.get_token_status
      { base_url := "u", token_file := "f", refresh_token := some "rt123",
        access_token := some "AT1", token_expires_at := 101 } 100).2 =
      PicusHelper.AccessStatus.valid (Int.fdiv ((101 : Int) - 100) 60) ∧
    (PicusHelper.get_token_status
      { base_url := "u", token_file := "f", refresh_token := some "rt123",
        access_token := some "AT1", token_expires_at := 99 } 100).2 =
      PicusHelper.AccessStatus.expired :=
  ⟨by decide,
    (c8_status_valid_iff
      { base_url := "u", token_file := "f", refresh_token := some "rt123",
        access_token := some "AT1", token_expires_at := 101 } 100
      (by decide)).2.1 (by decide),
    (c8_status_valid_iff
      { base_url := "u", token_file := "f", refresh_token := some "rt123",
        access_token := some "AT1", token_expires_at := 99 } 100
      (by decide)).1.mpr (by decide)⟩

/-- C5: a successful (2xx) authentication response carrying an access token
but no `expire_at` sets the stored expiry to `now + 3600`, which lies within
`[now + 3599, now + 3601]`. -/
theorem c5_default_expiry (s : PicusHelper.HelperState) (status : Nat)
    (text tok : String) (now now_ms : Int) (created : String)
    (hrt : PicusHelper.truthyStr s.refresh_token = true)
    (h2a : 200 ≤ status) (h2b : status < 300)
    (htok : tok ≠ "") :
    (PicusHelper.authenticate s (.response status text (some ⟨some tok, none⟩))
        now now_ms created).state.token_expires_at = now + 3600 ∧
    now + 3599 ≤ (PicusHelper.authenticate s (.response status text (some ⟨some tok, none⟩))
        now now_ms created).state.token_expires_at ∧
    (PicusHelper.authenticate s (.response status text (some ⟨some tok, none⟩))
        now now_ms created).state.token_expires_at ≤ now + 3601 := by
  have hrs : PicusHelper.raiseForStatus status = false := by
    simp only [PicusHelper.raiseForStatus, Bool.and_eq_false_iff, decide_eq_false_iff_not]
    omega
  have htok' : PicusHelper.truthyStr (some tok) = true := by
    simp [PicusHelper.truthyStr, htok]
  have hs : (PicusHelper.authenticate s (.response status text (some ⟨some tok, none⟩))
      now now_ms created).state.token_expires_at = now + 3600 := by
    simp [PicusHelper.authenticate, hrt, hrs, htok', PicusHelper.truthyInt]
  exact ⟨hs, by rw [hs]; omega, by rw [hs]; omega⟩

/-- Witness for C5: a 200 response with a token and no `expire_at`, at
`now = 1000`, yields expiry `4600`. -/
theorem c5_default_expiry_witness :
    PicusHelper.truthyStr (some "rt123") = true ∧
    (200 ≤ 200 ∧ 200 < 300) ∧
    "AT1" ≠ "" ∧
    ((PicusHelper.authenticate
        { base_url := "u", token_file := "f", refresh_token := some "rt123",
          access_token := none, token_expires_at := 0 }
        (.response 200 "ok" (some ⟨some "AT1", none⟩)) 1000 1000000
        "c").state.token_expires_at = 1000 + 3600 ∧
      1000 + 3599 ≤ (PicusHelper.authenticate
        { base_url := "u", token_file := "f", refresh_token := some "rt123",
          access_token := none, token_expires_at := 0 }
        (.response 200 "ok" (some ⟨some "AT1", none⟩)) 1000 1000000
        "c").state.token_expires_at ∧
      (PicusHelper.authenticate
        { base_url := "u", token_file := "f", refresh_token := some "rt123",
          access_token := none, token_expires_at := 0 }
        (.response 200 "ok" (some ⟨some "AT1", none⟩)) 1000 1000000
        "c").state.token_expires_at ≤ 1000 + 3601) :=
  ⟨by decide, ⟨by decide, by decide⟩, by decide,
    c5_default_expiry _ 200 "ok" "AT1" 1000 1000000 "c"
      (by decide) (by decide) (by decide) (by decide)⟩

/-- Helper: a truthy optional string is present. -/
theorem truthyStr_isSome (o : Option String) (h : PicusHelper.truthyStr o = true) :
    o.isSome = true := by
  cases o <;> simp_all [PicusHelper.truthyStr]

/-- Helper: a truthy optional integer is present and non-zero, so its
`getD 0` is non-zero. -/
theorem truthyInt_getD_ne (o : Option Int) (h : PicusHelper.truthyInt o = true) :
    o.getD 0 ≠ 0 := by
  cases o <;> simp_all [PicusHelper.truthyInt]

/-- Helper: a truthy `access_token` argument is copied into the saved
record. -/
theorem save_tokens_record_access_eq (rt : String) (acc : Option String)
    (exp : Option Int) (now_ms : Int) (created : String)
    (h : PicusHelper.truthyStr acc = true) :
    (PicusHelper.save_tokens_record rt acc exp now_ms created).access_token = acc := by
  simp only [PicusHelper.save_tokens_record, h, if_true]
  split <;> rfl

/-- Helper: a truthy `expires_at` argument is copied into the saved record. -/
theorem save_tokens_record_expires_eq (rt : String) (acc : Option String)
    (exp : Option Int) (now_ms : Int) (created : String)
    (h : PicusHelper.truthyInt exp = true) :
    (PicusHelper.save_tokens_record rt acc exp now_ms created).expires_at = exp := by
  simp only [PicusHelper.save_tokens_record, h, if_true]

/-- C1 counterexample: on a fresh helper, `save_tokens` with expiry `100`
followed by `load_tokens` of the written record yields a state whose
`token_expires_at` is `0`, not `100` — the persisted `expires_at` is not
reproduced in the resulting state, refuting round-trip fidelity as stated. -/
theorem c1_roundtrip_counterexample :
    (PicusHelper.save_tokens_record "rt123" (some "AT1") (some 100) 5 "c").expires_at =
      some 100 ∧
    (PicusHelper.load_tokens (PicusHelper.mkHelper "u" "f")
      (.record (PicusHelper.save_tokens_record "rt123" (some "AT1") (some 100) 5 "c"))
      5).ok = true ∧
    ¬ (PicusHelper.load_tokens (PicusHelper.mkHelper "u" "f")
      (.record (PicusHelper.save_tokens_record "rt123" (some "AT1") (some 100) 5 "c"))
      5).state.token_expires_at = 100 := by
  decide

/-- C1 amended: `save_tokens` followed immediately by `load_tokens` of the
written record reproduces `refresh_token` and `access_token` in the resulting
state, and the record on disk carries all three fields; but `load_tokens`
never reads `expires_at` back, so `token_expires_at` keeps whatever value the
state had before the load. -/
theorem c1_roundtrip_amended (s : PicusHelper.HelperState) (rt acc created : String)
    (exp now_ms now_ms2 : Int) (td : PicusHelper.TokenData)
    (hrt : rt ≠ "") (hpl : rt ≠ "your_refresh_token_here")
    (hacc : acc ≠ "") (hexp : exp ≠ 0)
    (htd : td = PicusHelper.save_tokens_record rt (some acc) (some exp) now_ms created) :
    td.refresh_token = some rt ∧
    td.access_token = some acc ∧
    td.expires_at = some exp ∧
    (PicusHelper.load_tokens s (.record td) now_ms2).ok = true ∧
    (PicusHelper.load_tokens s (.record td) now_ms2).state.refresh_token = some rt ∧
    (PicusHelper.load_tokens s (.record td) now_ms2).state.access_token = some acc ∧
    (PicusHelper.load_tokens s (.record td) now_ms2).state.token_expires_at =
      s.token_expires_at := by
  have htd' : td = ⟨some rt, some acc, some now_ms, some exp, some created⟩ := by
    rw [htd]
    simp [PicusHelper.save_tokens_record, PicusHelper.truthyStr, PicusHelper.truthyInt,
      hacc, hexp]
  subst htd'
  have hstate := load_tokens_record_state s
    ⟨some rt, some acc, some now_ms, some exp, some created⟩ now_ms2
  refine ⟨rfl, rfl, rfl, ?_, ?_, ?_, ?_⟩
  · simp only [PicusHelper.load_tokens]
    rw [if_neg, if_neg]
    · split <;> rfl
    · simp [hpl]
    · simp [PicusHelper.truthyStr, hrt]
  · rw [hstate]
  · rw [hstate]
  · rw [hstate]

/-- Witness for the amended C1 at a concrete save/load pair. -/
theorem c1_roundtrip_amended_witness :
    ("rt123" ≠ "" ∧ "rt123" ≠ "your_refresh_token_here" ∧ "AT1" ≠ "" ∧
      (100 : Int) ≠ 0 ∧
      (⟨some "rt123", some "AT1", some 5, some 100, some "c"⟩ : PicusHelper.TokenData) =
        PicusHelper.save_tokens_record "rt123" (some "AT1") (some 100) 5 "c") ∧
    ((⟨some "rt123", some "AT1", some 5, some 100, some "c"⟩ :
        PicusHelper.TokenData).refresh_token = some "rt123" ∧
      (⟨some "rt123", some "AT1", some 5, some 100, some "c"⟩ :
        PicusHelper.TokenData).access_token = some "AT1" ∧
      (⟨some "rt123", some "AT1", some 5, some 100, some "c"⟩ :
        PicusHelper.TokenData).expires_at = some 100 ∧
      (PicusHelper.load_tokens (PicusHelper.mkHelper "u" "f")
        (.record ⟨some "rt123", some "AT1", some 5, some 100, some "c"⟩) 5).ok = true ∧
      (PicusHelper.load_tokens (PicusHelper.mkHelper "u" "f")
        (.record ⟨some "rt123", some "AT1", some 5, some 100, some "c"⟩)
          5).state.refresh_token = some "rt123" ∧
      (PicusHelper.load_tokens (PicusHelper.mkHelper "u" "f")
        (.record ⟨some "rt123", some "AT1", some 5, some 100, some "c"⟩)
          5).state.access_token = some "AT1" ∧
      (PicusHelper.load_tokens (PicusHelper.mkHelper "u" "f")
        (.record ⟨some "rt123", some "AT1", some 5, some 100, some "c"⟩)
          5).state.token_expires_at = (PicusHelper.mkHelper "u" "f").token_expires_at) :=
  ⟨⟨by decide, by decide, by decide, by decide, by decide⟩,
    c1_roundtrip_amended (PicusHelper.mkHelper "u" "f") "rt123" "AT1" "c" 100 5 5 _
      (by decide) (by decide) (by decide) (by decide) (by decide)⟩

/-- C3 counterexample: `save_tokens` called with a truthy access token and no
expiry writes `access_token` without `expires_at`, so the two fields are not
always written together over all calls the signature admits. -/
theorem c3_both_or_neither_counterexample :
    (PicusHelper.save_tokens_record "rt123" (some "AT1") none 5 "c").access_token =
      some "AT1" ∧
    (PicusHelper.save_tokens_record "rt123" (some "AT1") none 5 "c").expires_at =
      none := by
  decide

/-- C3 amended: every record the program itself persists satisfies the
invariant — any record handed to `save_tokens` by `authenticate` (its sole
caller) carries both `access_token` and `expires_at` (for a non-negative
clock), and the example record carries neither. -/
theorem c3_saved_records_both_fields (s : PicusHelper.HelperState)
    (net : PicusHelper.HTTPOutcome) (now now_ms : Int) (created : String)
    (hnow : 0 ≤ now) (td : PicusHelper.TokenData)
    (hsaved : (PicusHelper.authenticate s net now now_ms created).saved = some td) :
    td.access_token.isSome = true ∧ td.expires_at.isSome = true ∧
    (PicusHelper.create_example_record now_ms created).access_token = none ∧
    (PicusHelper.create_example_record now_ms created).expires_at = none := by
  have key : td.access_token.isSome = true ∧ td.expires_at.isSome = true := by
    by_cases h1 : PicusHelper.truthyStr s.refresh_token = true
    case neg => simp [PicusHelper.authenticate, h1] at hsaved
    case pos =>
    cases net with
    | timeout => simp [PicusHelper.authenticate, h1] at hsaved
    | connectionError => simp [PicusHelper.authenticate, h1] at hsaved
    | response status text body =>
      by_cases h2 : PicusHelper.raiseForStatus status = true
      case pos => simp [PicusHelper.authenticate, h1, h2] at hsaved
      case neg =>
      cases body with
      | none => simp [PicusHelper.authenticate, h1, h2] at hsaved
      | some data =>
        by_cases h3 : PicusHelper.truthyStr data.token = true
        case neg => simp [PicusHelper.authenticate, h1, h2, h3] at hsaved
        case pos =>
        by_cases h4 : PicusHelper.truthyInt data.expire_at = true
        · simp [PicusHelper.authenticate, h1, h2, h3, h4] at hsaved
          subst hsaved
          have hx : PicusHelper.truthyInt (some (data.expire_at.getD 0)) = true := by
            simp [PicusHelper.truthyInt, truthyInt_getD_ne _ h4]
          rw [save_tokens_record_access_eq _ _ _ _ _ h3,
            save_tokens_record_expires_eq _ _ _ _ _ hx]
          exact ⟨truthyStr_isSome _ h3, rfl⟩
        · simp [PicusHelper.authenticate, h1, h2, h3, h4] at hsaved
          subst hsaved
          have hx : PicusHelper.truthyInt (some (now + 3600)) = true := by
            simp only [PicusHelper.truthyInt, Bool.not_eq_true', beq_eq_false_iff_ne, ne_eq]
            omega
          rw [save_tokens_record_access_eq _ _ _ _ _ h3,
            save_tokens_record_expires_eq _ _ _ _ _ hx]
          exact ⟨truthyStr_isSome _ h3, rfl⟩
  exact ⟨key.1, key.2, rfl, rfl⟩

/-- Witness for the amended C3 at a concrete successful authentication whose
saved record carries both fields. -/
theorem c3_saved_records_both_fields_witness :
    (0 : Int) ≤ 0 ∧
    (PicusHelper.authenticate
      { base_url := "u", token_file := "f", refresh_token := some "rt123",
        access_token := none, token_expires_at := 0 }
      (.response 200 "ok" (some ⟨some "AT1", some 50⟩)) 0 5 "c").saved =
      some ⟨some "rt123", some "AT1", some 5, some 50, some "c"⟩ ∧
    ((⟨some "rt123", some "AT1", some 5, some 50, some "c"⟩ :
        PicusHelper.TokenData).access_token.isSome = true ∧
      (⟨some "rt123", some "AT1", some 5, some 50, some "c"⟩ :
        PicusHelper.TokenData).expires_at.isSome = true ∧
      (PicusHelper.create_example_record 5 "c").access_token = none ∧
      (PicusHelper.create_example_record 5 "c").expires_at = none) :=
  ⟨by decide, by decide,
    c3_saved_records_both_fields
      { base_url := "u", token_file := "f", refresh_token := some "rt123",
        access_token := none, token_expires_at := 0 }
      (.response 200 "ok" (some ⟨some "AT1", some 50⟩)) 0 5 "c" (by decide) _
      (by decide)⟩

/-- C4 counterexample: a 304 response is not 2xx, yet `raise_for_status`
raises only for statuses in `[400, 600)`, so `authenticate` proceeds, reports
success, overwrites the in-memory access token, and persists it — refuting
the claim for the non-2xx status 304. -/
theorem c4_non2xx_counterexample :
    (PicusHelper.authenticate
      { base_url := "u", token_file := "f", refresh_token := some "rt123",
        access_token := none, token_expires_at := 0 }
      (.response 304 "not-modified" (some ⟨some "AT1", some 50⟩)) 0 5 "c").result =
      PicusHelper.AuthResult.success ∧
    (PicusHelper.authenticate
      { base_url := "u", token_file := "f", refresh_token := some "rt123",
        access_token := none, token_expires_at := 0 }
      (.response 304 "not-modified" (some ⟨some "AT1", some 50⟩)) 0 5 "c").saved ≠
      none ∧
    (PicusHelper.authenticate
      { base_url := "u", token_file := "f", refresh_token := some "rt123",
        access_token := none, token_expires_at := 0 }
      (.response 304 "not-modified" (some ⟨some "AT1", some 50⟩))
        0 5 "c").state.access_token = some "AT1" := by
  decide

/-- C4 amended: for every 4xx/5xx response (the statuses `raise_for_status`
raises on, 401 included), `authenticate` fails with the HTTP-error outcome
carrying the status code and response body, the whole state — the in-memory
access token included — is unchanged, and `save_tokens` is not called. -/
theorem c4_auth_rejected (s : PicusHelper.HelperState) (status : Nat) (text : String)
    (body : Option PicusHelper.AuthBody) (now now_ms : Int) (created : String)
    (hrt : PicusHelper.truthyStr s.refresh_token = true)
    (h4 : 400 ≤ status) (h6 : status < 600) :
    PicusHelper.authenticate s (.response status text body) now now_ms created =
      ⟨s, PicusHelper.AuthResult.httpError status text, none⟩ := by
  have hrs : PicusHelper.raiseForStatus status = true := by
    simp only [PicusHelper.raiseForStatus, Bool.and_eq_true, decide_eq_true_eq]
    exact ⟨h4, h6⟩
  simp [PicusHelper.authenticate, hrt, hrs]

/-- Witness for the amended C4 at a concrete 401 response. -/
theorem c4_auth_rejected_witness :
    PicusHelper.truthyStr
      ({ base_url := "u", token_file := "f", refresh_token := some "rt123",
         access_token := some "OLD", token_expires_at := 7 } :
        PicusHelper.HelperState).refresh_token = true ∧
    (400 ≤ 401 ∧ 401 < 600) ∧
    PicusHelper.authenticate
      { base_url := "u", token_file := "f", refresh_token := some "rt123",
        access_token := some "OLD", token_expires_at := 7 }
      (.response 401 "unauthorized" (some ⟨none, none⟩)) 0 5 "c" =
      ⟨{ base_url := "u", token_file := "f", refresh_token := some "rt123",
          access_token := some "OLD", token_expires_at := 7 },
        PicusHelper.AuthResult.httpError 401 "unauthorized", none⟩ :=
  ⟨by decide, ⟨by decide, by decide⟩,
    c4_auth_rejected
      { base_url := "u", token_file := "f", refresh_token := some "rt123",
        access_token := some "OLD", token_expires_at := 7 }
      401 "unauthorized" (some ⟨none, none⟩) 0 5 "c"
      (by decide) (by decide) (by decide)⟩

/-- C9 counterexample: `save_tokens` has no `return` statement, so a call
whose write raises returns the same value (`None`, modelled `()`) as a call
whose write succeeds — the failure is reported only on the console and is not
observable by the caller through the result. -/
theorem c9_save_return_counterexample :
    PicusHelper.save_tokens "rt123" (some "AT1") (some 50) 5 "c" false true =
      ⟨none, PicusHelper.SaveMsg.errorSaving, ()⟩ ∧
    (PicusHelper.save_tokens "rt123" (some "AT1") (some 50) 5 "c" true true).ret =
      (PicusHelper.save_tokens "rt123" (some "AT1") (some 50) 5 "c" false true).ret := by
  exact ⟨rfl, rfl⟩

/-- C9 amended: `save_tokens` never propagates an exception — a failed write
is caught and yields the error diagnostic (and nothing is written), success
yields one of the two saved diagnostics — but its Python return value is
`None` on every path, so the outcome is not distinguished in the value the
caller receives. -/
theorem c9_save_swallows_errors (rt : String) (acc : Option String) (exp : Option Int)
    (now_ms : Int) (created : String) (writeOk chmodOk : Bool) :
    ((PicusHelper.save_tokens rt acc exp now_ms created writeOk chmodOk).msg =
        PicusHelper.SaveMsg.errorSaving ↔ writeOk = false) ∧
    ((PicusHelper.save_tokens rt acc exp now_ms created writeOk chmodOk).written =
        none ↔ writeOk = false) ∧
    (PicusHelper.save_tokens rt acc exp now_ms created writeOk chmodOk).ret = () := by
  cases writeOk <;> cases chmodOk <;>
    simp [PicusHelper.save_tokens]
